import Mathlib

/-!
# Verification of the icon asset pipeline (`src/assets/icons/convert_to_dds.py`)

A shallow embedding of the three-stage SVG → PNG → DDS → deployment pipeline.

Modelling conventions:
* A directory is `Option (List File)`: `none` means the directory does not
  exist on disk; `some l` lists its files in directory order.  `Path.glob`
  on a missing directory yields nothing (as in Python), so `glob` works on
  the `Option`.
* External tools (`magick`, `texconv`) are oracles from the argv list handed
  to `subprocess.run` to an outcome: exit 0 (with the bytes and metadata of
  the file the tool writes), non-zero exit with captured stderr,
  `FileNotFoundError` (binary not launchable), or any other exception.
* `print` output is accumulated in a `log : List String`, one entry per call.
* `shutil.copy2` may raise; this is an oracle `copyFail` from the copied
  file name to `Option String` (`some msg` = the exception raised).  The
  deployment stage has no exception handler in the source, so it returns
  `Except String _`.
-/

namespace ConvertToDds

/-- A file on disk: its name (with extension), its bytes, and its metadata
(modification time etc., abstracted to one `Nat`; `shutil.copy2` preserves it). -/
structure File where
  name : String
  content : List Nat
  mtime : Nat
deriving DecidableEq, Repr

/-- A directory: `none` if it does not exist, else its files in order. -/
abbrev Dir := Option (List File)

/-- The files of a directory; a missing directory scans as empty
(`Path.glob` on a nonexistent directory yields no entries and no error). -/
def dirFiles (d : Dir) : List File := d.getD []

/-- `path.exists()` for `dir / name`. -/
def dirHas (d : Dir) (n : String) : Bool := (dirFiles d).any (fun f => f.name == n)

/-- First file of the given name, if any. -/
def lookupFile (l : List File) (n : String) : Option File := l.find? (fun f => f.name == n)

/-- `Path.mkdir(parents=True, exist_ok=True)`: creates the directory if
absent, keeps its contents if present. -/
def mkdirp (d : Dir) : Dir := some (dirFiles d)

/-- Writing a file into a directory listing: replaces the entry of the same
name if present, else appends (overwrite semantics of the tools and of
`shutil.copy2`). -/
def writeFile (l : List File) (f : File) : List File :=
  if l.any (fun g => g.name == f.name) then
    l.map (fun g => if g.name == f.name then f else g)
  else l ++ [f]

/-- Writing a file into a directory (the write creates no directory: all
writers in the script run after the target directory was created). -/
def dirWrite (d : Dir) (f : File) : Dir := some (writeFile (dirFiles d) f)

/-- Whether `post` is a suffix of `s` (the `*.ext` glob test), computed on
the character lists so that it evaluates definitionally. -/
def strSuffix (s post : String) : Bool :=
  s.toList.drop (s.toList.length - post.toList.length) == post.toList

/-- `dir.glob("*" + ext)`: the files whose name ends with `ext`, in
directory order; nothing for a missing directory. -/
def globExt (ext : String) (d : Dir) : List File :=
  (dirFiles d).filter (fun f => strSuffix f.name ext)

/-- `Path.stem` for the names this script globs, which all carry a
four-character extension (".svg", ".png", ".dds"): the name with its last
four characters removed. -/
def pstem (n : String) : String := String.mk (n.toList.take (n.toList.length - 4))

/-- `str(dir / name)` (separator abstracted). -/
def pathJoin (dir n : String) : String := dir ++ "/" ++ n

/-- Outcome of one `subprocess.run` call, as the script observes it. -/
inductive ToolResult where
  /-- Exit code 0; the tool wrote its output file with these bytes and metadata. -/
  | ok (content : List Nat) (mtime : Nat)
  /-- Non-zero exit code, with the captured stderr text. -/
  | err (stderr : String)
  /-- `FileNotFoundError`: the binary could not be launched. -/
  | notFound
  /-- Any other exception, with its text. -/
  | exc (msg : String)
deriving DecidableEq, Repr

/-- An external tool: a map from the argv list to the call's outcome. -/
abbrev Tool := List String → ToolResult

/-- The hard-coded ImageMagick install path used by the script. -/
def magickPath : String := "C:\\Program Files\\ImageMagick-7.1.2-Q16\\magick.exe"

/-- argv of the ImageMagick call of stage 1 (`-background none`, input, output). -/
def magickArgv (svgPath pngPath : String) : List String :=
  [magickPath, "-background", "none", svgPath, pngPath]

/-- argv of the texconv call of stage 2 (`-f BC7_UNORM`, `-y`, `-o` outdir, input). -/
def texconvArgv (ddsDir pngPath : String) : List String :=
  ["texconv", "-f", "BC7_UNORM", "-y", "-o", ddsDir, pngPath]

/-! ## Stage 1: `convert_svgs_to_pngs` -/

/-- Loop state of stage 1: the counters, the evolving raster directory, the
printed lines, the input file names passed to the tool so far, and whether
the stage aborted (`return converted` inside the `except FileNotFoundError`). -/
structure S1State where
  converted : Nat
  skipped : Nat
  png : Dir
  log : List String
  invoked : List String
  aborted : Bool
deriving DecidableEq, Repr

/-- The `for svg_path in svg_files` loop of `convert_svgs_to_pngs`. -/
def s1Loop (magick : Tool) (svgDirName pngDirName : String) :
    S1State → List File → S1State
  | st, [] => st
  | st, f :: rest =>
    let pngName := pstem f.name ++ ".png"
    if dirHas st.png pngName then
      s1Loop magick svgDirName pngDirName { st with skipped := st.skipped + 1 } rest
    else
      match magick (magickArgv (pathJoin svgDirName f.name) (pathJoin pngDirName pngName)) with
      | .ok c m =>
          s1Loop magick svgDirName pngDirName
            { st with
              converted := st.converted + 1
              png := dirWrite st.png ⟨pngName, c, m⟩
              log := st.log ++ ["  [OK] " ++ f.name ++ " -> " ++ pngName]
              invoked := st.invoked ++ [f.name] } rest
      | .err e =>
          s1Loop magick svgDirName pngDirName
            { st with
              log := st.log ++ ["  [ERR] " ++ f.name ++ " - ImageMagick error: " ++ e]
              invoked := st.invoked ++ [f.name] } rest
      | .notFound =>
          { st with
            log := st.log ++
              ["  [ERR] magick not found in PATH!",
               "    Download from: https://imagemagick.org/script/download.php"]
            invoked := st.invoked ++ [f.name]
            aborted := true }
      | .exc e =>
          s1Loop magick svgDirName pngDirName
            { st with
              log := st.log ++ ["  [ERR] " ++ f.name ++ " - Error: " ++ e]
              invoked := st.invoked ++ [f.name] } rest

/-- What `convert_svgs_to_pngs` returns and leaves behind. -/
structure S1Result where
  count : Nat
  skipped : Nat
  svgDir : Dir
  pngDir : Dir
  log : List String
  invoked : List String
  aborted : Bool
deriving DecidableEq, Repr

/-- `convert_svgs_to_pngs(svg_dir, png_dir)`: creates both directories,
globs `*.svg`, reports when there is nothing to do, else runs the loop and
appends the skipped-count summary (unless the loop returned early). -/
def convert_svgs_to_pngs (magick : Tool) (svgDirName pngDirName : String)
    (svg_dir png_dir : Dir) : S1Result :=
  let svgD := mkdirp svg_dir
  let pngD := mkdirp png_dir
  let svg_files := globExt ".svg" svgD
  if svg_files.isEmpty then
    { count := 0, skipped := 0, svgDir := svgD, pngDir := pngD
      log := ["No SVG files found"], invoked := [], aborted := false }
  else
    let st := s1Loop magick svgDirName pngDirName
      { converted := 0, skipped := 0, png := pngD, log := [], invoked := [], aborted := false }
      svg_files
    let finalLog :=
      if st.aborted then st.log
      else if st.skipped > 0 then
        st.log ++ ["  Skipped " ++ toString st.skipped ++ " SVGs (PNGs already exist)"]
      else st.log
    { count := st.converted, skipped := st.skipped, svgDir := svgD, pngDir := st.png
      log := finalLog, invoked := st.invoked, aborted := st.aborted }

/-! ## Stage 2: `convert_pngs_to_dds` -/

/-- Loop state of stage 2. -/
structure S2State where
  converted : Nat
  dds : Dir
  log : List String
  invoked : List String
  aborted : Bool
deriving DecidableEq, Repr

/-- The `for png_path in png_files` loop of `convert_pngs_to_dds`:
no existence check, every file goes straight to the tool. -/
def s2Loop (texconv : Tool) (pngDirName ddsDirName : String) :
    S2State → List File → S2State
  | st, [] => st
  | st, f :: rest =>
    let ddsName := pstem f.name ++ ".dds"
    match texconv (texconvArgv ddsDirName (pathJoin pngDirName f.name)) with
    | .ok c m =>
        s2Loop texconv pngDirName ddsDirName
          { st with
            converted := st.converted + 1
            dds := dirWrite st.dds ⟨ddsName, c, m⟩
            log := st.log ++ ["  [OK] " ++ f.name ++ " -> " ++ ddsName]
            invoked := st.invoked ++ [f.name] } rest
    | .err e =>
        s2Loop texconv pngDirName ddsDirName
          { st with
            log := st.log ++ ["  [ERR] " ++ f.name ++ " - texconv error: " ++ e]
            invoked := st.invoked ++ [f.name] } rest
    | .notFound =>
        { st with
          log := st.log ++
            ["  [ERR] texconv not found in PATH!",
             "    Download from: https://github.com/Microsoft/DirectXTex/releases"]
          invoked := st.invoked ++ [f.name]
          aborted := true }
    | .exc e =>
        s2Loop texconv pngDirName ddsDirName
          { st with
            log := st.log ++ ["  [ERR] " ++ f.name ++ " - Error: " ++ e]
            invoked := st.invoked ++ [f.name] } rest

/-- What `convert_pngs_to_dds` returns and leaves behind.  The raster
directory is passed through untouched: the function never writes to it and
never creates it. -/
structure S2Result where
  count : Nat
  pngDir : Dir
  ddsDir : Dir
  log : List String
  invoked : List String
  aborted : Bool
deriving DecidableEq, Repr

/-- `convert_pngs_to_dds(png_dir, dds_dir)`: creates only the DDS output
directory, globs `*.png` from the raster directory as it is, reports when
there is nothing to do, else converts every file. -/
def convert_pngs_to_dds (texconv : Tool) (pngDirName ddsDirName : String)
    (png_dir dds_dir : Dir) : S2Result :=
  let ddsD := mkdirp dds_dir
  let png_files := globExt ".png" png_dir
  if png_files.isEmpty then
    { count := 0, pngDir := png_dir, ddsDir := ddsD
      log := ["No PNG files found in " ++ pngDirName], invoked := [], aborted := false }
  else
    let st := s2Loop texconv pngDirName ddsDirName
      { converted := 0, dds := ddsD
        log := ["Converting " ++ toString png_files.length ++ " PNG files to DDS..."]
        invoked := [], aborted := false }
      png_files
    { count := st.converted, pngDir := png_dir, ddsDir := st.dds
      log := st.log, invoked := st.invoked, aborted := st.aborted }

/-! ## Stage 3: `copy_to_mod_folder` -/

/-- The `for dds_path in dds_dir.glob("*.dds")` loop.  `shutil.copy2`
copies the bytes and the metadata and overwrites an existing destination
file; if it raises, nothing catches the exception. -/
def s3Loop (copyFail : String → Option String) (modD : Dir) (copied : Nat)
    (log : List String) : List File → Except String (Nat × Dir × List String)
  | [] => .ok (copied, modD, log)
  | f :: rest =>
    match copyFail f.name with
    | some e => .error e
    | none =>
        s3Loop copyFail (dirWrite modD f) (copied + 1)
          (log ++ ["  [OK] " ++ f.name ++ " (DDS)"]) rest

/-- `copy_to_mod_folder(png_dir, dds_dir, mod_dir)`: creates the
destination, then copies every `*.dds` file of the DDS directory into it.
The raster directory parameter is never used.  There is no exception
handler: a failing copy propagates to the caller. -/
def copy_to_mod_folder (copyFail : String → Option String) (modDirName : String)
    (png_dir dds_dir mod_dir : Dir) : Except String (Nat × Dir × List String) :=
  let modD := mkdirp mod_dir
  s3Loop copyFail modD 0 ["\nCopying files to mod folder: " ++ modDirName]
    (globExt ".dds" dds_dir)

/-! ## Orchestrator: `main` -/

/-- The destination path constant `MOD_TEXTURES_DIR` (as a display string). -/
def modTexturesDirName : String := "papyrus/mods/VR Editor/textures/VREditor"

/-- Everything `main` computes: the three counts of the summary line, the
final state of the four directories, and the console transcript. -/
structure MainResult where
  svg_count : Nat
  dds_count : Nat
  copy_count : Nat
  svgDir : Dir
  pngDir : Dir
  ddsDir : Dir
  modDir : Dir
  log : List String
deriving DecidableEq, Repr

/-- The `"=" * 60` banner line. -/
def eqLine : String := String.mk (List.replicate 60 '=')

/-- The `"-" * 40` header rule. -/
def dashLine : String := String.mk (List.replicate 40 '-')

/-- `main()`: runs the three stages in order on the script-relative
directories, printing the banner, the per-stage headers, and the final
summary.  It has no exception handler, so an exception escaping a stage
(only stage 3 can raise in this model) escapes `main` too. -/
def main (magick texconv : Tool) (copyFail : String → Option String)
    (svg_dir png_dir dds_dir mod_dir : Dir) : Except String MainResult :=
  let r1 := convert_svgs_to_pngs magick "svg" "pngs" svg_dir png_dir
  let r2 := convert_pngs_to_dds texconv "pngs" "dds" r1.pngDir dds_dir
  match copy_to_mod_folder copyFail modTexturesDirName r2.pngDir r2.ddsDir mod_dir with
  | .error e => .error e
  | .ok (c3, modD, log3) =>
      .ok
        { svg_count := r1.count, dds_count := r2.count, copy_count := c3
          svgDir := r1.svgDir, pngDir := r2.pngDir, ddsDir := r2.ddsDir, modDir := modD
          log :=
            [eqLine, "Icon DDS Converter & Deployer", eqLine,
             "\n[1/3] SVG -> PNG conversion", dashLine] ++ r1.log ++
            ["\n[2/3] PNG -> DDS conversion", dashLine] ++ r2.log ++
            ["\n[3/3] Deploy to mod folder", dashLine] ++ log3 ++
            ["\n" ++ eqLine,
             "Done! Converted " ++ toString r1.count ++ " SVGs, " ++
               toString r2.count ++ " DDS files, copied " ++ toString c3 ++ " total files.",
             eqLine] }

/-! ## Basic lemmas about the directory model -/

theorem dirFiles_mkdirp (d : Dir) : dirFiles (mkdirp d) = dirFiles d := rfl

theorem dirHas_mkdirp (d : Dir) (n : String) : dirHas (mkdirp d) n = dirHas d n := rfl

theorem globExt_mkdirp (ext : String) (d : Dir) : globExt ext (mkdirp d) = globExt ext d := rfl

theorem mkdirp_mkdirp (d : Dir) : mkdirp (mkdirp d) = mkdirp d := rfl

theorem writeFile_of_absent {l : List File} {f : File}
    (h : l.any (fun g => g.name == f.name) = false) : writeFile l f = l ++ [f] := by
  unfold writeFile
  rw [h]
  rfl

theorem length_writeFile_of_absent {l : List File} {f : File}
    (h : l.any (fun g => g.name == f.name) = false) :
    (writeFile l f).length = l.length + 1 := by
  rw [writeFile_of_absent h, List.length_append]
  rfl

theorem mem_writeFile_self (l : List File) (f : File) : f ∈ writeFile l f := by
  unfold writeFile
  by_cases h : l.any (fun g => g.name == f.name)
  · simp only [h, if_true]
    rcases List.any_eq_true.mp h with ⟨a, ha, hname⟩
    refine List.mem_map.mpr ⟨a, ha, ?_⟩
    simp [hname]
  · simp [h]

theorem dirHas_dirWrite_self (d : Dir) (f : File) : dirHas (dirWrite d f) f.name = true := by
  unfold dirHas dirWrite dirFiles
  exact List.any_eq_true.mpr ⟨f, mem_writeFile_self _ _, by simp⟩

theorem dirHas_dirWrite_mono {d : Dir} {n : String} (f : File)
    (h : dirHas d n = true) : dirHas (dirWrite d f) n = true := by
  unfold dirHas dirWrite dirFiles at *
  rcases List.any_eq_true.mp h with ⟨a, ha, hname⟩
  unfold writeFile
  by_cases hc : (Option.getD d []).any (fun g => g.name == f.name)
  · rw [if_pos hc]
    refine List.any_eq_true.mpr ?_
    by_cases haf : a.name = f.name
    · refine ⟨f, List.mem_map.mpr ⟨a, ha, ?_⟩, ?_⟩
      · simp [haf]
      · simp only [beq_iff_eq] at hname ⊢
        rw [← haf, hname]
    · refine ⟨a, List.mem_map.mpr ⟨a, ha, ?_⟩, hname⟩
      simp [haf]
  · rw [if_neg hc]
    exact List.any_eq_true.mpr ⟨a, List.mem_append_left _ ha, hname⟩

theorem mem_writeFile {l : List File} {f g : File}
    (h : g ∈ writeFile l f) : g ∈ l ∨ g = f := by
  unfold writeFile at h
  by_cases hc : l.any (fun a => a.name == f.name)
  · rw [if_pos hc] at h
    rcases List.mem_map.mp h with ⟨a, ha, hfa⟩
    by_cases haf : a.name = f.name
    · right
      rw [← hfa]
      simp [haf]
    · left
      have hga : g = a := by
        rw [← hfa]
        simp [haf]
      rw [hga]
      exact ha
  · rw [if_neg hc] at h
    rcases List.mem_append.mp h with h1 | h1
    · exact Or.inl h1
    · exact Or.inr (List.mem_singleton.mp h1)

theorem find_map_replace_self (f : File) (l : List File)
    (hc : l.any (fun g => g.name == f.name) = true) :
    (l.map (fun g => if g.name == f.name then f else g)).find? (fun x => x.name == f.name) =
      some f := by
  induction l with
  | nil => simp at hc
  | cons a t ih =>
    rw [List.map_cons]
    by_cases haf : a.name = f.name
    · have h1 : (if (a.name == f.name) = true then f else a) = f := by simp [haf]
      rw [h1, List.find?_cons_of_pos _ (by simp)]
    · have h1 : (if (a.name == f.name) = true then f else a) = a := by simp [haf]
      rw [h1, List.find?_cons_of_neg _ (by simp [haf])]
      simp only [List.any_cons, Bool.or_eq_true, beq_iff_eq] at hc
      rcases hc with hc | hc
      · exact absurd hc haf
      · exact ih hc

theorem lookupFile_writeFile_self (l : List File) (f : File) :
    lookupFile (writeFile l f) f.name = some f := by
  unfold writeFile lookupFile
  by_cases hc : l.any (fun g => g.name == f.name)
  · rw [if_pos hc]
    exact find_map_replace_self f l hc
  · rw [if_neg hc, List.find?_append]
    have h1 : List.find? (fun x => x.name == f.name) l = none := by
      refine List.find?_eq_none.mpr ?_
      intro x hx hpx
      rw [Bool.not_eq_true] at hc
      have hany : l.any (fun g => g.name == f.name) = true := List.any_eq_true.mpr ⟨x, hx, hpx⟩
      rw [hany] at hc
      cases hc
    rw [h1, List.find?_cons_of_pos _ (by simp)]
    rfl

theorem find_map_replace {n : String} (f : File) (l : List File) (h : f.name ≠ n) :
    (l.map (fun g => if g.name == f.name then f else g)).find? (fun x => x.name == n) =
      l.find? (fun x => x.name == n) := by
  induction l with
  | nil => rfl
  | cons a t ih =>
    rw [List.map_cons]
    by_cases haf : a.name = f.name
    · have h1 : (if (a.name == f.name) = true then f else a) = f := by simp [haf]
      rw [h1, List.find?_cons_of_neg _ (by simpa using h),
        List.find?_cons_of_neg _ (by simpa [haf] using h)]
      exact ih
    · have h1 : (if (a.name == f.name) = true then f else a) = a := by simp [haf]
      rw [h1]
      by_cases hpa : a.name = n
      · rw [List.find?_cons_of_pos _ (by simp [hpa]), List.find?_cons_of_pos _ (by simp [hpa])]
      · rw [List.find?_cons_of_neg _ (by simp [hpa]), List.find?_cons_of_neg _ (by simp [hpa])]
        exact ih

theorem find_append_single_ne {n : String} (f : File) (l : List File) (h : f.name ≠ n) :
    (l ++ [f]).find? (fun x => x.name == n) = l.find? (fun x => x.name == n) := by
  rw [List.find?_append]
  have h1 : List.find? (fun x => x.name == n) [f] = none := by
    rw [List.find?_cons_of_neg _ (by simpa using h)]
    rfl
  rw [h1]
  cases List.find? (fun x => x.name == n) l <;> rfl

theorem lookupFile_writeFile_ne {n : String} (l : List File) (f : File)
    (h : f.name ≠ n) : lookupFile (writeFile l f) n = lookupFile l n := by
  unfold writeFile lookupFile
  by_cases hc : l.any (fun g => g.name == f.name)
  · simpa [hc] using find_map_replace f l h
  · simpa [hc] using find_append_single_ne f l h

/-! ## Step equations for the three loops

The successor states of one loop iteration get names so that proofs can
refer to them compactly. -/

/-- Stage-1 iteration outcome: raster already present, file skipped. -/
def s1Skip (st : S1State) : S1State := { st with skipped := st.skipped + 1 }

/-- Stage-1 iteration outcome: tool exited 0 and wrote the raster. -/
def s1Ok (st : S1State) (f : File) (c : List Nat) (m : Nat) : S1State :=
  { st with
    converted := st.converted + 1
    png := dirWrite st.png ⟨pstem f.name ++ ".png", c, m⟩
    log := st.log ++ ["  [OK] " ++ f.name ++ " -> " ++ (pstem f.name ++ ".png")]
    invoked := st.invoked ++ [f.name] }

/-- Stage-1 iteration outcome: tool exited non-zero, file skipped with a log line. -/
def s1Err (st : S1State) (f : File) (e : String) : S1State :=
  { st with
    log := st.log ++ ["  [ERR] " ++ f.name ++ " - ImageMagick error: " ++ e]
    invoked := st.invoked ++ [f.name] }

/-- Stage-1 iteration outcome: some other exception, file skipped with a log line. -/
def s1Exc (st : S1State) (f : File) (e : String) : S1State :=
  { st with
    log := st.log ++ ["  [ERR] " ++ f.name ++ " - Error: " ++ e]
    invoked := st.invoked ++ [f.name] }

/-- Stage-1 iteration outcome: tool binary missing, the loop aborts. -/
def s1NF (st : S1State) (f : File) : S1State :=
  { st with
    log := st.log ++
      ["  [ERR] magick not found in PATH!",
       "    Download from: https://imagemagick.org/script/download.php"]
    invoked := st.invoked ++ [f.name]
    aborted := true }

theorem s1Loop_nil (M : Tool) (sN pN : String) (st : S1State) : s1Loop M sN pN st [] = st := rfl

theorem s1Loop_cons_skip {M : Tool} {sN pN : String} {st : S1State} {f : File}
    {rest : List File} (hp : dirHas st.png (pstem f.name ++ ".png") = true) :
    s1Loop M sN pN st (f :: rest) = s1Loop M sN pN (s1Skip st) rest := by
  rw [s1Loop]
  simp only [hp, if_true]
  rfl

theorem s1Loop_cons_ok {M : Tool} {sN pN : String} {st : S1State} {f : File}
    {rest : List File} {c : List Nat} {m : Nat}
    (hp : dirHas st.png (pstem f.name ++ ".png") = false)
    (hm : M (magickArgv (pathJoin sN f.name) (pathJoin pN (pstem f.name ++ ".png"))) =
      .ok c m) :
    s1Loop M sN pN st (f :: rest) = s1Loop M sN pN (s1Ok st f c m) rest := by
  rw [s1Loop]
  simp only [hp, Bool.false_eq_true, if_false, hm]
  rfl

theorem s1Loop_cons_err {M : Tool} {sN pN : String} {st : S1State} {f : File}
    {rest : List File} {e : String}
    (hp : dirHas st.png (pstem f.name ++ ".png") = false)
    (hm : M (magickArgv (pathJoin sN f.name) (pathJoin pN (pstem f.name ++ ".png"))) =
      .err e) :
    s1Loop M sN pN st (f :: rest) = s1Loop M sN pN (s1Err st f e) rest := by
  rw [s1Loop]
  simp only [hp, Bool.false_eq_true, if_false, hm]
  rfl

theorem s1Loop_cons_notFound {M : Tool} {sN pN : String} {st : S1State} {f : File}
    {rest : List File}
    (hp : dirHas st.png (pstem f.name ++ ".png") = false)
    (hm : M (magickArgv (pathJoin sN f.name) (pathJoin pN (pstem f.name ++ ".png"))) =
      .notFound) :
    s1Loop M sN pN st (f :: rest) = s1NF st f := by
  rw [s1Loop]
  simp only [hp, Bool.false_eq_true, if_false, hm]
  rfl

theorem s1Loop_cons_exc {M : Tool} {sN pN : String} {st : S1State} {f : File}
    {rest : List File} {e : String}
    (hp : dirHas st.png (pstem f.name ++ ".png") = false)
    (hm : M (magickArgv (pathJoin sN f.name) (pathJoin pN (pstem f.name ++ ".png"))) =
      .exc e) :
    s1Loop M sN pN st (f :: rest) = s1Loop M sN pN (s1Exc st f e) rest := by
  rw [s1Loop]
  simp only [hp, Bool.false_eq_true, if_false, hm]
  rfl

/-- Stage-2 iteration outcome: tool exited 0 and wrote the compressed file. -/
def s2Ok (st : S2State) (f : File) (c : List Nat) (m : Nat) : S2State :=
  { st with
    converted := st.converted + 1
    dds := dirWrite st.dds ⟨pstem f.name ++ ".dds", c, m⟩
    log := st.log ++ ["  [OK] " ++ f.name ++ " -> " ++ (pstem f.name ++ ".dds")]
    invoked := st.invoked ++ [f.name] }

/-- Stage-2 iteration outcome: tool exited non-zero. -/
def s2Err (st : S2State) (f : File) (e : String) : S2State :=
  { st with
    log := st.log ++ ["  [ERR] " ++ f.name ++ " - texconv error: " ++ e]
    invoked := st.invoked ++ [f.name] }

/-- Stage-2 iteration outcome: some other exception. -/
def s2Exc (st : S2State) (f : File) (e : String) : S2State :=
  { st with
    log := st.log ++ ["  [ERR] " ++ f.name ++ " - Error: " ++ e]
    invoked := st.invoked ++ [f.name] }

/-- Stage-2 iteration outcome: tool binary missing, the loop aborts. -/
def s2NF (st : S2State) (f : File) : S2State :=
  { st with
    log := st.log ++
      ["  [ERR] texconv not found in PATH!",
       "    Download from: https://github.com/Microsoft/DirectXTex/releases"]
    invoked := st.invoked ++ [f.name]
    aborted := true }

theorem s2Loop_nil (T : Tool) (pN dN : String) (st : S2State) : s2Loop T pN dN st [] = st := rfl

theorem s2Loop_cons_ok {T : Tool} {pN dN : String} {st : S2State} {f : File}
    {rest : List File} {c : List Nat} {m : Nat}
    (hm : T (texconvArgv dN (pathJoin pN f.name)) = .ok c m) :
    s2Loop T pN dN st (f :: rest) = s2Loop T pN dN (s2Ok st f c m) rest := by
  rw [s2Loop]
  simp only [hm]
  rfl

theorem s2Loop_cons_err {T : Tool} {pN dN : String} {st : S2State} {f : File}
    {rest : List File} {e : String}
    (hm : T (texconvArgv dN (pathJoin pN f.name)) = .err e) :
    s2Loop T pN dN st (f :: rest) = s2Loop T pN dN (s2Err st f e) rest := by
  rw [s2Loop]
  simp only [hm]
  rfl

theorem s2Loop_cons_notFound {T : Tool} {pN dN : String} {st : S2State} {f : File}
    {rest : List File}
    (hm : T (texconvArgv dN (pathJoin pN f.name)) = .notFound) :
    s2Loop T pN dN st (f :: rest) = s2NF st f := by
  rw [s2Loop]
  simp only [hm]
  rfl

theorem s2Loop_cons_exc {T : Tool} {pN dN : String} {st : S2State} {f : File}
    {rest : List File} {e : String}
    (hm : T (texconvArgv dN (pathJoin pN f.name)) = .exc e) :
    s2Loop T pN dN st (f :: rest) = s2Loop T pN dN (s2Exc st f e) rest := by
  rw [s2Loop]
  simp only [hm]
  rfl

theorem s3Loop_cons_fail {cf : String → Option String} {m : Dir} {c : Nat}
    {lg : List String} {f : File} {rest : List File} {e : String}
    (h : cf f.name = some e) :
    s3Loop cf m c lg (f :: rest) = .error e := by
  rw [s3Loop]
  simp only [h]

theorem s3Loop_cons_copied {cf : String → Option String} {m : Dir} {c : Nat}
    {lg : List String} {f : File} {rest : List File}
    (h : cf f.name = none) :
    s3Loop cf m c lg (f :: rest) =
      s3Loop cf (dirWrite m f) (c + 1) (lg ++ ["  [OK] " ++ f.name ++ " (DDS)"]) rest := by
  rw [s3Loop]
  simp only [h]

/-! ## Invariants of the stage-1 loop -/

/-- A raster file present in the PNG directory stays present through the
stage-1 loop (the existence check guards every write, and writes to absent
names only add files). -/
theorem s1Loop_dirHas_mono {M : Tool} {sN pN : String} {n : String} :
    ∀ (l : List File) (st : S1State), dirHas st.png n = true →
      dirHas (s1Loop M sN pN st l).png n = true := by
  intro l
  induction l with
  | nil => exact fun st h => h
  | cons f rest ih =>
    intro st h
    cases hp : dirHas st.png (pstem f.name ++ ".png") with
    | true =>
      rw [s1Loop_cons_skip hp]
      exact ih (s1Skip st) h
    | false =>
      cases hm : M (magickArgv (pathJoin sN f.name) (pathJoin pN (pstem f.name ++ ".png"))) with
      | ok c m =>
        rw [s1Loop_cons_ok hp hm]
        exact ih (s1Ok st f c m) (dirHas_dirWrite_mono _ h)
      | err e =>
        rw [s1Loop_cons_err hp hm]
        exact ih (s1Err st f e) h
      | notFound =>
        rw [s1Loop_cons_notFound hp hm]
        exact h
      | exc e =>
        rw [s1Loop_cons_exc hp hm]
        exact ih (s1Exc st f e) h

/-- A raster file present in the PNG directory is never overwritten by the
stage-1 loop: its exact directory entry survives the whole loop. -/
theorem s1Loop_lookup_preserved {M : Tool} {sN pN : String} {n : String} :
    ∀ (l : List File) (st : S1State), dirHas st.png n = true →
      lookupFile (dirFiles (s1Loop M sN pN st l).png) n = lookupFile (dirFiles st.png) n := by
  intro l
  induction l with
  | nil => exact fun st _ => rfl
  | cons f rest ih =>
    intro st h
    cases hp : dirHas st.png (pstem f.name ++ ".png") with
    | true =>
      rw [s1Loop_cons_skip hp]
      exact ih (s1Skip st) h
    | false =>
      have hne : (pstem f.name ++ ".png") ≠ n := by
        intro he
        rw [he, h] at hp
        exact Bool.noConfusion hp
      cases hm : M (magickArgv (pathJoin sN f.name) (pathJoin pN (pstem f.name ++ ".png"))) with
      | ok c m =>
        rw [s1Loop_cons_ok hp hm]
        have h2 := ih (s1Ok st f c m) (dirHas_dirWrite_mono _ h)
        refine h2.trans ?_
        exact lookupFile_writeFile_ne (dirFiles st.png) ⟨pstem f.name ++ ".png", c, m⟩ hne
      | err e =>
        rw [s1Loop_cons_err hp hm]
        exact ih (s1Err st f e) h
      | notFound =>
        rw [s1Loop_cons_notFound hp hm]
        rfl
      | exc e =>
        rw [s1Loop_cons_exc hp hm]
        exact ih (s1Exc st f e) h

/-- If a stem's raster target is already present, the loop never passes an
input file of that name to the rasterizing tool. -/
theorem s1Loop_not_invoked {M : Tool} {sN pN : String} {fname : String} :
    ∀ (l : List File) (st : S1State), dirHas st.png (pstem fname ++ ".png") = true →
      fname ∉ st.invoked → fname ∉ (s1Loop M sN pN st l).invoked := by
  intro l
  induction l with
  | nil => exact fun st _ h2 => h2
  | cons g rest ih =>
    intro st h h2
    cases hp : dirHas st.png (pstem g.name ++ ".png") with
    | true =>
      rw [s1Loop_cons_skip hp]
      exact ih (s1Skip st) h h2
    | false =>
      have hne : fname ≠ g.name := by
        intro he
        rw [← he, h] at hp
        exact Bool.noConfusion hp
      have h2e : fname ∉ st.invoked ++ [g.name] := by
        intro hmem
        rcases List.mem_append.mp hmem with hm1 | hm1
        · exact h2 hm1
        · exact hne (List.mem_singleton.mp hm1)
      cases hm : M (magickArgv (pathJoin sN g.name) (pathJoin pN (pstem g.name ++ ".png"))) with
      | ok c m =>
        rw [s1Loop_cons_ok hp hm]
        exact ih (s1Ok st g c m) (dirHas_dirWrite_mono _ h) h2e
      | err e =>
        rw [s1Loop_cons_err hp hm]
        exact ih (s1Err st g e) h h2e
      | notFound =>
        rw [s1Loop_cons_notFound hp hm]
        exact h2e
      | exc e =>
        rw [s1Loop_cons_exc hp hm]
        exact ih (s1Exc st g e) h h2e

/-- Size accounting of the stage-1 loop: every counted conversion adds
exactly one new file to the raster directory, and nothing else changes its
size — the count of conversions is exactly the number of newly produced
rasters. -/
theorem s1Loop_size {M : Tool} {sN pN : String} :
    ∀ (l : List File) (st : S1State),
      (dirFiles (s1Loop M sN pN st l).png).length + st.converted =
        (dirFiles st.png).length + (s1Loop M sN pN st l).converted := by
  intro l
  induction l with
  | nil => exact fun st => rfl
  | cons f rest ih =>
    intro st
    cases hp : dirHas st.png (pstem f.name ++ ".png") with
    | true =>
      rw [s1Loop_cons_skip hp]
      exact ih (s1Skip st)
    | false =>
      cases hm : M (magickArgv (pathJoin sN f.name) (pathJoin pN (pstem f.name ++ ".png"))) with
      | ok c m =>
        rw [s1Loop_cons_ok hp hm]
        have hlen : (dirFiles (s1Ok st f c m).png).length = (dirFiles st.png).length + 1 :=
          length_writeFile_of_absent hp
        have h2 := ih (s1Ok st f c m)
        rw [hlen] at h2
        have hc : (s1Ok st f c m).converted = st.converted + 1 := rfl
        rw [hc] at h2
        omega
      | err e =>
        rw [s1Loop_cons_err hp hm]
        exact ih (s1Err st f e)
      | notFound =>
        rw [s1Loop_cons_notFound hp hm]
        rfl
      | exc e =>
        rw [s1Loop_cons_exc hp hm]
        exact ih (s1Exc st f e)

/-- The skipped counter never decreases. -/
theorem s1Loop_skipped_mono {M : Tool} {sN pN : String} :
    ∀ (l : List File) (st : S1State), st.skipped ≤ (s1Loop M sN pN st l).skipped := by
  intro l
  induction l with
  | nil => exact fun _ => Nat.le_refl _
  | cons f rest ih =>
    intro st
    cases hp : dirHas st.png (pstem f.name ++ ".png") with
    | true =>
      rw [s1Loop_cons_skip hp]
      exact Nat.le_trans (Nat.le_succ _) (ih (s1Skip st))
    | false =>
      cases hm : M (magickArgv (pathJoin sN f.name) (pathJoin pN (pstem f.name ++ ".png"))) with
      | ok c m =>
        rw [s1Loop_cons_ok hp hm]
        exact ih (s1Ok st f c m)
      | err e =>
        rw [s1Loop_cons_err hp hm]
        exact ih (s1Err st f e)
      | notFound =>
        rw [s1Loop_cons_notFound hp hm]
        exact Nat.le_refl _
      | exc e =>
        rw [s1Loop_cons_exc hp hm]
        exact ih (s1Exc st f e)

/-- A listed file whose raster target is already present is counted as
skipped — unless a missing tool binary aborted the loop before reaching it. -/
theorem s1Loop_skip_hit {M : Tool} {sN pN : String} {f : File} :
    ∀ (l : List File) (st : S1State), f ∈ l →
      dirHas st.png (pstem f.name ++ ".png") = true →
      st.skipped + 1 ≤ (s1Loop M sN pN st l).skipped ∨
        (s1Loop M sN pN st l).aborted = true := by
  intro l
  induction l with
  | nil => exact fun st hf => absurd hf (List.not_mem_nil f)
  | cons g rest ih =>
    intro st hf h
    rcases List.mem_cons.mp hf with hfg | hfr
    · subst hfg
      rw [s1Loop_cons_skip h]
      exact Or.inl (s1Loop_skipped_mono rest (s1Skip st))
    · cases hp : dirHas st.png (pstem g.name ++ ".png") with
      | true =>
        rw [s1Loop_cons_skip hp]
        rcases ih (s1Skip st) hfr h with h1 | h1
        · refine Or.inl (Nat.le_trans ?_ h1)
          show st.skipped + 1 ≤ st.skipped + 1 + 1
          omega
        · exact Or.inr h1
      | false =>
        cases hm : M (magickArgv (pathJoin sN g.name) (pathJoin pN (pstem g.name ++ ".png"))) with
        | ok c m =>
          rw [s1Loop_cons_ok hp hm]
          exact ih (s1Ok st g c m) hfr (dirHas_dirWrite_mono _ h)
        | err e =>
          rw [s1Loop_cons_err hp hm]
          exact ih (s1Err st g e) hfr h
        | notFound =>
          rw [s1Loop_cons_notFound hp hm]
          exact Or.inr rfl
        | exc e =>
          rw [s1Loop_cons_exc hp hm]
          exact ih (s1Exc st g e) hfr h

/-- When the tool succeeds on every call, after the loop every listed stem
has its raster target present. -/
theorem s1Loop_allok_cover {M : Tool} {sN pN : String}
    (hok : ∀ a, ∃ c m, M a = ToolResult.ok c m) {f : File} :
    ∀ (l : List File) (st : S1State), f ∈ l →
      dirHas (s1Loop M sN pN st l).png (pstem f.name ++ ".png") = true := by
  intro l
  induction l with
  | nil => exact fun st hf => absurd hf (List.not_mem_nil f)
  | cons g rest ih =>
    intro st hf
    rcases List.mem_cons.mp hf with hfg | hfr
    · subst hfg
      cases hp : dirHas st.png (pstem f.name ++ ".png") with
      | true =>
        rw [s1Loop_cons_skip hp]
        exact s1Loop_dirHas_mono rest (s1Skip st) hp
      | false =>
        obtain ⟨c, m, hm⟩ :=
          hok (magickArgv (pathJoin sN f.name) (pathJoin pN (pstem f.name ++ ".png")))
        rw [s1Loop_cons_ok hp hm]
        exact s1Loop_dirHas_mono rest (s1Ok st f c m) (dirHas_dirWrite_self _ _)
    · cases hp : dirHas st.png (pstem g.name ++ ".png") with
      | true =>
        rw [s1Loop_cons_skip hp]
        exact ih (s1Skip st) hfr
      | false =>
        obtain ⟨c, m, hm⟩ :=
          hok (magickArgv (pathJoin sN g.name) (pathJoin pN (pstem g.name ++ ".png")))
        rw [s1Loop_cons_ok hp hm]
        exact ih (s1Ok st g c m) hfr

/-- When every listed stem already has its raster target, the loop does
nothing but count every file as skipped. -/
theorem s1Loop_all_skip {M : Tool} {sN pN : String} :
    ∀ (l : List File) (st : S1State),
      (∀ f ∈ l, dirHas st.png (pstem f.name ++ ".png") = true) →
      s1Loop M sN pN st l = { st with skipped := st.skipped + l.length } := by
  intro l
  induction l with
  | nil =>
    intro st _
    cases st
    rfl
  | cons f rest ih =>
    intro st h
    rw [s1Loop_cons_skip (h f (List.mem_cons_self f rest))]
    rw [ih (s1Skip st) fun g hg => h g (List.mem_cons_of_mem f hg)]
    have harith : st.skipped + 1 + rest.length = st.skipped + (f :: rest).length := by
      rw [List.length_cons]
      omega
    show { st with skipped := st.skipped + 1 + rest.length } =
      { st with skipped := st.skipped + (f :: rest).length }
    rw [harith]

/-! ## Invariants of the stage-2 loop -/

/-- As long as the tool binary can be launched, the stage-2 loop passes
every listed file to the tool, in order and exactly once: there is no
existence-skip branch. -/
theorem s2Loop_invoked {T : Tool} {pN dN : String}
    (hnf : ∀ a, T a ≠ ToolResult.notFound) :
    ∀ (l : List File) (st : S2State),
      (s2Loop T pN dN st l).invoked = st.invoked ++ l.map File.name := by
  intro l
  induction l with
  | nil =>
    intro st
    simp [s2Loop_nil]
  | cons f rest ih =>
    intro st
    cases hm : T (texconvArgv dN (pathJoin pN f.name)) with
    | ok c m =>
      rw [s2Loop_cons_ok hm, ih (s2Ok st f c m)]
      simp [s2Ok, List.append_assoc]
    | err e =>
      rw [s2Loop_cons_err hm, ih (s2Err st f e)]
      simp [s2Err, List.append_assoc]
    | notFound => exact absurd hm (hnf _)
    | exc e =>
      rw [s2Loop_cons_exc hm, ih (s2Exc st f e)]
      simp [s2Exc, List.append_assoc]

/-! ## The stage-3 loop as a pure fold -/

/-- When no copy raises, the deployment loop succeeds: it copies every
listed file in order (a fold of overwriting writes), counts each one, and
logs one line per file. -/
theorem s3Loop_ok {cf : String → Option String} (hcf : ∀ n, cf n = none) :
    ∀ (l : List File) (m : Dir) (c : Nat) (lg : List String),
      s3Loop cf m c lg l =
        .ok (c + l.length, l.foldl dirWrite m,
          lg ++ l.map (fun f => "  [OK] " ++ f.name ++ " (DDS)")) := by
  intro l
  induction l with
  | nil =>
    intro m c lg
    simp [s3Loop]
  | cons f rest ih =>
    intro m c lg
    rw [s3Loop_cons_copied (hcf f.name), ih]
    have h1 : c + 1 + rest.length = c + (f :: rest).length := by
      rw [List.length_cons]
      omega
    rw [h1]
    simp [List.append_assoc]

/-- A name present in a directory is still present after a batch of writes. -/
theorem foldl_dirWrite_dirHas_mono {n : String} :
    ∀ (l : List File) (m : Dir), dirHas m n = true →
      dirHas (l.foldl dirWrite m) n = true := by
  intro l
  induction l with
  | nil => exact fun m h => h
  | cons f rest ih =>
    intro m h
    rw [List.foldl_cons]
    exact ih _ (dirHas_dirWrite_mono _ h)

/-- Every written file's name is present after the batch of writes. -/
theorem foldl_dirWrite_dirHas_mem {f : File} :
    ∀ (l : List File) (m : Dir), f ∈ l →
      dirHas (l.foldl dirWrite m) f.name = true := by
  intro l
  induction l with
  | nil => exact fun m hf => absurd hf (List.not_mem_nil f)
  | cons g rest ih =>
    intro m hf
    rw [List.foldl_cons]
    rcases List.mem_cons.mp hf with hfg | hfr
    · subst hfg
      exact foldl_dirWrite_dirHas_mono rest _ (dirHas_dirWrite_self _ _)
    · exact ih _ hfr

/-- A batch of writes leaves every name it does not write untouched. -/
theorem foldl_dirWrite_lookup_of_not_mem {n : String} :
    ∀ (l : List File) (m : Dir), n ∉ l.map File.name →
      lookupFile (dirFiles (l.foldl dirWrite m)) n = lookupFile (dirFiles m) n := by
  intro l
  induction l with
  | nil => exact fun m _ => rfl
  | cons f rest ih =>
    intro m hn
    rw [List.map_cons] at hn
    have hne : f.name ≠ n := by
      intro he
      exact hn (he ▸ List.mem_cons_self f.name (rest.map File.name))
    rw [List.foldl_cons]
    have h2 := ih (dirWrite m f) fun hmem => hn (List.mem_cons_of_mem _ hmem)
    refine h2.trans ?_
    exact lookupFile_writeFile_ne (dirFiles m) f hne

/-- After a batch of writes of files with pairwise distinct names, each
written file is retrievable intact (bytes and metadata) under its name. -/
theorem foldl_dirWrite_lookup_self {f : File} :
    ∀ (l : List File) (m : Dir), f ∈ l → (l.map File.name).Nodup →
      lookupFile (dirFiles (l.foldl dirWrite m)) f.name = some f := by
  intro l
  induction l with
  | nil => exact fun m hf _ => absurd hf (List.not_mem_nil f)
  | cons g rest ih =>
    intro m hf hnd
    rw [List.map_cons] at hnd
    rw [List.foldl_cons]
    rcases List.mem_cons.mp hf with hfg | hfr
    · subst hfg
      have hnot : f.name ∉ rest.map File.name := (List.nodup_cons.mp hnd).1
      rw [foldl_dirWrite_lookup_of_not_mem rest _ hnot]
      exact lookupFile_writeFile_self (dirFiles m) f
    · exact ih _ hfr (List.nodup_cons.mp hnd).2

/-- Every file in the directory after a batch of writes was there before or
is one of the written files: the deployment loop adds nothing else. -/
theorem foldl_dirWrite_mem_provenance {g : File} :
    ∀ (l : List File) (m : Dir), g ∈ dirFiles (l.foldl dirWrite m) →
      g ∈ dirFiles m ∨ g ∈ l := by
  intro l
  induction l with
  | nil => exact fun m h => Or.inl h
  | cons f rest ih =>
    intro m h
    rw [List.foldl_cons] at h
    rcases ih (dirWrite m f) h with h1 | h1
    · rcases mem_writeFile h1 with h2 | h2
      · exact Or.inl h2
      · exact Or.inr (h2 ▸ List.mem_cons_self f rest)
    · exact Or.inr (List.mem_cons_of_mem f h1)

/-- Whatever the copy-failure oracle does, a successful deployment loop run
only ever puts pre-existing destination files or listed files into the
destination directory. -/
theorem s3Loop_ok_provenance {cf : String → Option String} {g : File} :
    ∀ (l : List File) (m : Dir) (c : Nat) (lg : List String) (n : Nat) (m2 : Dir)
      (lg2 : List String),
      s3Loop cf m c lg l = .ok (n, m2, lg2) → g ∈ dirFiles m2 →
      g ∈ dirFiles m ∨ g ∈ l := by
  intro l
  induction l with
  | nil =>
    intro m c lg n m2 lg2 hres hg
    have hm : m = m2 := by
      rw [s3Loop] at hres
      injection hres with h
      exact congrArg (fun t => t.2.1) h
    rw [hm]
    exact Or.inl hg
  | cons f rest ih =>
    intro m c lg n m2 lg2 hres hg
    cases hcf : cf f.name with
    | some e =>
      rw [s3Loop_cons_fail hcf] at hres
      exact Except.noConfusion hres
    | none =>
      rw [s3Loop_cons_copied hcf] at hres
      rcases ih _ _ _ _ _ _ hres hg with h1 | h1
      · rcases mem_writeFile h1 with h2 | h2
        · exact Or.inl h2
        · exact Or.inr (h2 ▸ List.mem_cons_self f rest)
      · exact Or.inr (List.mem_cons_of_mem f h1)

/-! ## The claims -/

/-- C9 (confirmed): the deployment stage is independent of its
raster-directory parameter.  `copy_to_mod_folder` never reads from the
raster directory: for any two raster-directory arguments it returns the
very same result (same count, same destination contents, same log), and on
success every file of the destination is either a pre-existing destination
file or one of the `.dds` files of the compressed-output directory — so no
raster file is ever copied. -/
theorem C9_deploy_independent_of_raster_dir (cf : String → Option String)
    (dN : String) (p1 p2 dds modD : Dir) :
    copy_to_mod_folder cf dN p1 dds modD = copy_to_mod_folder cf dN p2 dds modD ∧
    (∀ (n : Nat) (m : Dir) (lg : List String) (g : File),
      copy_to_mod_folder cf dN p1 dds modD = .ok (n, m, lg) →
      g ∈ dirFiles m → g ∈ dirFiles (mkdirp modD) ∨ g ∈ globExt ".dds" dds) := by
  refine ⟨rfl, ?_⟩
  intro n m lg g hres hg
  exact s3Loop_ok_provenance _ _ _ _ _ _ _ hres hg

/-- Witness for C9 at a concrete input: deploying one `a.dds` file with an
empty destination; the provenance part places the deployed file in the
compressed-output glob. -/
theorem C9_deploy_independent_of_raster_dir_witness :
    ConvertToDds.File.mk "a.dds" [5] 7 ∈ dirFiles (mkdirp (some [])) ∨
      ConvertToDds.File.mk "a.dds" [5] 7 ∈ globExt ".dds" (some [⟨"a.dds", [5], 7⟩]) :=
  (C9_deploy_independent_of_raster_dir (fun _ => none) "mod" none (some [])
      (some [⟨"a.dds", [5], 7⟩]) (some [])).2
    1 (some [⟨"a.dds", [5], 7⟩])
    ["\nCopying files to mod folder: mod", "  [OK] a.dds (DDS)"]
    ⟨"a.dds", [5], 7⟩ rfl (by decide)

/-- C10 (confirmed): stage 2 never creates its raster input directory.  On
a missing raster directory `convert_pngs_to_dds` leaves it missing, raises
nothing, invokes no tool, returns 0 and logs the "no files" report — and
its count, output directory, log and invocations are exactly those of a
run on an existing empty raster directory. -/
theorem C10_stage2_never_creates_png_dir (T : Tool) (pN dN : String) (dds : Dir) :
    (convert_pngs_to_dds T pN dN none dds).pngDir = none ∧
    (convert_pngs_to_dds T pN dN none dds).count = 0 ∧
    (convert_pngs_to_dds T pN dN none dds).invoked = [] ∧
    (convert_pngs_to_dds T pN dN none dds).aborted = false ∧
    (convert_pngs_to_dds T pN dN none dds).log = ["No PNG files found in " ++ pN] ∧
    (convert_pngs_to_dds T pN dN none dds).count =
      (convert_pngs_to_dds T pN dN (some []) dds).count ∧
    (convert_pngs_to_dds T pN dN none dds).ddsDir =
      (convert_pngs_to_dds T pN dN (some []) dds).ddsDir ∧
    (convert_pngs_to_dds T pN dN none dds).log =
      (convert_pngs_to_dds T pN dN (some []) dds).log ∧
    (convert_pngs_to_dds T pN dN none dds).invoked =
      (convert_pngs_to_dds T pN dN (some []) dds).invoked :=
  ⟨rfl, rfl, rfl, rfl, rfl, rfl, rfl, rfl, rfl⟩

/-- C8 (confirmed): empty inputs are not errors.  With no vector source
files, stage 1 returns 0, logs exactly "No SVG files found", leaves the
raster directory contents unchanged, invokes nothing and does not abort;
with no raster files, stage 2 returns 0 and logs exactly the "no files"
report naming the specific raster directory, invoking nothing. -/
theorem C8_empty_input_reports :
    (∀ (M : Tool) (sN pN : String) (svgD pngD : Dir),
      globExt ".svg" svgD = [] →
      (convert_svgs_to_pngs M sN pN svgD pngD).count = 0 ∧
      (convert_svgs_to_pngs M sN pN svgD pngD).log = ["No SVG files found"] ∧
      dirFiles (convert_svgs_to_pngs M sN pN svgD pngD).pngDir = dirFiles pngD ∧
      (convert_svgs_to_pngs M sN pN svgD pngD).invoked = [] ∧
      (convert_svgs_to_pngs M sN pN svgD pngD).aborted = false) ∧
    (∀ (T : Tool) (pN dN : String) (pngD ddsD : Dir),
      globExt ".png" pngD = [] →
      (convert_pngs_to_dds T pN dN pngD ddsD).count = 0 ∧
      (convert_pngs_to_dds T pN dN pngD ddsD).log = ["No PNG files found in " ++ pN] ∧
      (convert_pngs_to_dds T pN dN pngD ddsD).invoked = [] ∧
      (convert_pngs_to_dds T pN dN pngD ddsD).aborted = false) := by
  constructor
  · intro M sN pN svgD pngD h
    have he : (globExt ".svg" svgD).isEmpty = true := by
      rw [h]
      rfl
    refine ⟨?_, ?_, ?_, ?_, ?_⟩ <;>
      simp [convert_svgs_to_pngs, globExt_mkdirp, dirFiles_mkdirp, he]
  · intro T pN dN pngD ddsD h
    have he : (globExt ".png" pngD).isEmpty = true := by
      rw [h]
      rfl
    refine ⟨?_, ?_, ?_, ?_⟩ <;>
      simp [convert_pngs_to_dds, he]

/-- Witness for C8 at concrete inputs: a missing source directory for
stage 1 and an empty raster directory for stage 2. -/
theorem C8_empty_input_reports_witness :
    ((convert_svgs_to_pngs (fun _ => ToolResult.notFound) "svg" "pngs" none (some [])).count = 0 ∧
      (convert_svgs_to_pngs (fun _ => ToolResult.notFound) "svg" "pngs" none (some [])).log =
        ["No SVG files found"]) ∧
    ((convert_pngs_to_dds (fun _ => ToolResult.notFound) "pngs" "dds" (some []) (some [])).count = 0 ∧
      (convert_pngs_to_dds (fun _ => ToolResult.notFound) "pngs" "dds" (some []) (some [])).log =
        ["No PNG files found in " ++ "pngs"]) := by
  have h1 := C8_empty_input_reports.1 (fun _ => ToolResult.notFound) "svg" "pngs" none (some []) rfl
  have h2 := C8_empty_input_reports.2 (fun _ => ToolResult.notFound) "pngs" "dds" (some []) (some []) rfl
  exact ⟨⟨h1.1, h1.2.1⟩, ⟨h2.1, h2.2.1⟩⟩

/-- When no copy raises, the deployment stage succeeds and its result is
the pure fold of overwriting writes over the `.dds` glob. -/
theorem copy_to_mod_folder_ok {cf : String → Option String} (hcf : ∀ x, cf x = none)
    (dN : String) (png dds modD : Dir) :
    copy_to_mod_folder cf dN png dds modD =
      .ok ((globExt ".dds" dds).length,
        (globExt ".dds" dds).foldl dirWrite (mkdirp modD),
        ["\nCopying files to mod folder: " ++ dN] ++
          (globExt ".dds" dds).map (fun g => "  [OK] " ++ g.name ++ " (DDS)")) := by
  show s3Loop cf (mkdirp modD) 0 ["\nCopying files to mod folder: " ++ dN]
    (globExt ".dds" dds) = _
  rw [s3Loop_ok hcf, Nat.zero_add]

/-- C1 (corrected), counterexample: the deployment stage has no exception
handler, so a failing copy propagates out of `main` and the process exits
non-zero.  Concretely: with empty source and raster directories, one
`a.dds` file in the compressed-output directory and a copy that raises
"disk full", `main` ends in that exception instead of absorbing it. -/
theorem C1_counterexample :
    main (fun _ => ToolResult.notFound) (fun _ => ToolResult.notFound)
      (fun _ => some "disk full") (some []) (some []) (some [⟨"a.dds", [1], 0⟩]) (some []) =
      .error "disk full" := rfl

/-- C1 (corrected), amended: provided every file copy of the deployment
stage succeeds, `main` raises no exception to its caller, for every
filesystem state and every behavior of the two external tools — failures
inside stages 1 and 2 are absorbed there and reported only as printed
text.  (The original claim is false only for deployment-stage failures,
which nothing catches.) -/
theorem C1_amended_no_exception (M T : Tool) (cf : String → Option String)
    (svgD pngD ddsD modD : Dir) (hcf : ∀ x, cf x = none) :
    ∃ r, main M T cf svgD pngD ddsD modD = .ok r := by
  simp only [main]
  rw [copy_to_mod_folder_ok hcf]
  exact ⟨_, rfl⟩

/-- Witness for C1 (amended) at a concrete input: both tools missing, one
compressed file to deploy, no copy failure — `main` still returns normally. -/
theorem C1_amended_no_exception_witness :
    ∃ r, main (fun _ => ToolResult.notFound) (fun _ => ToolResult.notFound) (fun _ => none)
      (some []) (some []) (some [⟨"a.dds", [1], 0⟩]) (some []) = .ok r :=
  C1_amended_no_exception _ _ _ _ _ _ _ (fun _ => rfl)

/-- C2 (corrected), counterexample: the deployment stage does filter — it
copies only `*.dds` files.  A file `note.txt` present in the
compressed-output directory is not copied: the run returns count 0 and an
unchanged empty destination, refuting "every file present in the
compressed-output directory is copied, with no filtering". -/
theorem C2_counterexample :
    copy_to_mod_folder (fun _ => none) "mod" (some []) (some [⟨"note.txt", [1], 0⟩]) (some []) =
      .ok (0, some [], ["\nCopying files to mod folder: mod"]) := rfl

/-- C2 (corrected), amended: the deployment stage copies every `*.dds`
file present in the compressed-output directory — the only filtering is
the `.dds` name pattern, with no stem matching against the raster
directory — and returns the count of files so copied. -/
theorem C2_amended_copies_all_dds (cf : String → Option String) (dN : String)
    (png dds modD : Dir) (hcf : ∀ x, cf x = none) :
    copy_to_mod_folder cf dN png dds modD =
      .ok ((globExt ".dds" dds).length,
        (globExt ".dds" dds).foldl dirWrite (mkdirp modD),
        ["\nCopying files to mod folder: " ++ dN] ++
          (globExt ".dds" dds).map (fun g => "  [OK] " ++ g.name ++ " (DDS)")) ∧
    ∀ f ∈ globExt ".dds" dds,
      dirHas ((globExt ".dds" dds).foldl dirWrite (mkdirp modD)) f.name = true := by
  refine ⟨copy_to_mod_folder_ok hcf dN png dds modD, ?_⟩
  intro f hf
  exact foldl_dirWrite_dirHas_mem _ _ hf

/-- Witness for C2 (amended) at a concrete input: one `a.dds` file,
empty destination; it is copied, counted and present afterwards. -/
theorem C2_amended_copies_all_dds_witness :
    copy_to_mod_folder (fun _ => none) "mod" none (some [⟨"a.dds", [5], 7⟩]) (some []) =
      .ok (1, some [⟨"a.dds", [5], 7⟩],
        ["\nCopying files to mod folder: mod", "  [OK] a.dds (DDS)"]) ∧
    dirHas (some [⟨"a.dds", [5], 7⟩]) "a.dds" = true := by
  have h := C2_amended_copies_all_dds (fun _ => none) "mod" none
    (some [⟨"a.dds", [5], 7⟩]) (some []) (fun _ => rfl)
  exact ⟨h.1, h.2 ⟨"a.dds", [5], 7⟩ (by decide)⟩

/-- C7 (confirmed): each file the deployment stage copies lands in the
destination byte-identical and with its metadata (`shutil.copy2`), under
its own name, overwriting any pre-existing destination file of that name:
after a successful run, looking the name up in the destination yields
exactly the source file. -/
theorem C7_deploy_byte_identical (cf : String → Option String) (dN : String)
    (png dds modD : Dir) (f : File) (n : Nat) (m : Dir) (lg : List String)
    (hcf : ∀ x, cf x = none)
    (hnd : ((dirFiles dds).map File.name).Nodup)
    (hf : f ∈ globExt ".dds" dds)
    (hres : copy_to_mod_folder cf dN png dds modD = .ok (n, m, lg)) :
    lookupFile (dirFiles m) f.name = some f := by
  rw [copy_to_mod_folder_ok hcf] at hres
  injection hres with h3
  have hm : m = (globExt ".dds" dds).foldl dirWrite (mkdirp modD) :=
    (congrArg (fun t => t.2.1) h3).symm
  rw [hm]
  have hnd2 : ((globExt ".dds" dds).map File.name).Nodup :=
    List.Nodup.sublist (List.Sublist.map _ (List.filter_sublist _)) hnd
  exact foldl_dirWrite_lookup_self _ _ hf hnd2

/-- Witness for C7 at a concrete input: deploying `a.dds` over a
destination that already holds a stale file of the same name; the copy
overwrites it with the exact source bytes and metadata. -/
theorem C7_deploy_byte_identical_witness :
    lookupFile (dirFiles (some [⟨"a.dds", [5], 7⟩])) "a.dds" =
      some ⟨"a.dds", [5], 7⟩ :=
  C7_deploy_byte_identical (fun _ => none) "mod" none (some [⟨"a.dds", [5], 7⟩])
    (some [⟨"a.dds", [9], 9⟩]) ⟨"a.dds", [5], 7⟩ 1 (some [⟨"a.dds", [5], 7⟩])
    ["\nCopying files to mod folder: mod", "  [OK] a.dds (DDS)"]
    (fun _ => rfl) (by decide) (by decide) rfl

/-- C4 (confirmed): stage 2 has no existence-skip branch.  As long as the
compression tool binary can be launched, `convert_pngs_to_dds` passes every
raster file to the tool — its invocation list is exactly the `*.png` glob,
in order, regardless of any pre-existing compressed outputs — each file
exactly once per run (given the real-directory invariant of distinct
names), and every invocation's argv carries the `-y` overwrite flag. -/
theorem C4_stage2_no_existence_skip (T : Tool) (pN dN : String) (png dds : Dir)
    (hnf : ∀ a, T a ≠ ToolResult.notFound) :
    (convert_pngs_to_dds T pN dN png dds).invoked = (globExt ".png" png).map File.name ∧
    (((dirFiles png).map File.name).Nodup →
      ∀ f ∈ globExt ".png" png,
        ((convert_pngs_to_dds T pN dN png dds).invoked).count f.name = 1) ∧
    (∀ p, "-y" ∈ texconvArgv dN p) := by
  have h1 : (convert_pngs_to_dds T pN dN png dds).invoked =
      (globExt ".png" png).map File.name := by
    by_cases hemp : (globExt ".png" png).isEmpty
    · have he : globExt ".png" png = [] := List.isEmpty_iff.mp hemp
      simp [convert_pngs_to_dds, hemp, he]
    · have he : (globExt ".png" png).isEmpty = false := by
        cases hb : (globExt ".png" png).isEmpty
        · rfl
        · exact absurd hb hemp
      simp only [convert_pngs_to_dds, he, Bool.false_eq_true, if_false]
      rw [s2Loop_invoked hnf]
      simp
  refine ⟨h1, ?_, ?_⟩
  · intro hnd f hf
    rw [h1]
    have hndg : ((globExt ".png" png).map File.name).Nodup :=
      List.Nodup.sublist (List.Sublist.map _ (List.filter_sublist _)) hnd
    exact List.count_eq_one_of_mem hndg (List.mem_map_of_mem _ hf)
  · intro p
    simp [texconvArgv]

/-- Witness for C4 at a concrete input: one raster file, a tool that keeps
failing with a non-zero exit — it is still invoked (and exactly once). -/
theorem C4_stage2_no_existence_skip_witness :
    (convert_pngs_to_dds (fun _ => ToolResult.err "x") "pngs" "dds"
        (some [⟨"a.png", [1], 2⟩]) (some [])).invoked =
      (globExt ".png" (some [⟨"a.png", [1], 2⟩])).map File.name ∧
    ((convert_pngs_to_dds (fun _ => ToolResult.err "x") "pngs" "dds"
        (some [⟨"a.png", [1], 2⟩]) (some [])).invoked).count "a.png" = 1 := by
  have h := C4_stage2_no_existence_skip (fun _ => ToolResult.err "x") "pngs" "dds"
    (some [⟨"a.png", [1], 2⟩]) (some []) (fun a hc => ToolResult.noConfusion hc)
  exact ⟨h.1, h.2.1 (by decide) ⟨"a.png", [1], 2⟩ (by decide)⟩

/-- C5 (confirmed): per-file versus whole-stage failure, in both tool
stages.  If the binary cannot be launched (`FileNotFoundError`), the loop
stops at that file: the remaining files are never attempted, the
remediation hint is logged, and the conversion count so far is what the
stage returns (`s1NF`/`s2NF` keep `converted` unchanged and set the abort
flag).  If instead the tool runs and exits non-zero, only a log line is
added for that one file (`s1Err`/`s2Err`, count unchanged) and the loop
continues with the remaining files. -/
theorem C5_failure_distinction :
    (∀ (M : Tool) (sN pN : String) (st : S1State) (f : File) (rest : List File),
      dirHas st.png (pstem f.name ++ ".png") = false →
      M (magickArgv (pathJoin sN f.name) (pathJoin pN (pstem f.name ++ ".png"))) =
        ToolResult.notFound →
      s1Loop M sN pN st (f :: rest) = s1NF st f) ∧
    (∀ (M : Tool) (sN pN : String) (st : S1State) (f : File) (rest : List File) (e : String),
      dirHas st.png (pstem f.name ++ ".png") = false →
      M (magickArgv (pathJoin sN f.name) (pathJoin pN (pstem f.name ++ ".png"))) =
        ToolResult.err e →
      s1Loop M sN pN st (f :: rest) = s1Loop M sN pN (s1Err st f e) rest) ∧
    (∀ (T : Tool) (pN dN : String) (st : S2State) (f : File) (rest : List File),
      T (texconvArgv dN (pathJoin pN f.name)) = ToolResult.notFound →
      s2Loop T pN dN st (f :: rest) = s2NF st f) ∧
    (∀ (T : Tool) (pN dN : String) (st : S2State) (f : File) (rest : List File) (e : String),
      T (texconvArgv dN (pathJoin pN f.name)) = ToolResult.err e →
      s2Loop T pN dN st (f :: rest) = s2Loop T pN dN (s2Err st f e) rest) ∧
    (∀ (st : S1State) (f : File),
      (s1NF st f).converted = st.converted ∧ (s1NF st f).aborted = true) ∧
    (∀ (st : S1State) (f : File) (e : String), (s1Err st f e).converted = st.converted) ∧
    (∀ (st : S2State) (f : File),
      (s2NF st f).converted = st.converted ∧ (s2NF st f).aborted = true) ∧
    (∀ (st : S2State) (f : File) (e : String), (s2Err st f e).converted = st.converted) :=
  ⟨fun _ _ _ _ _ _ hp hm => s1Loop_cons_notFound hp hm,
   fun _ _ _ _ _ _ _ hp hm => s1Loop_cons_err hp hm,
   fun _ _ _ _ _ _ hm => s2Loop_cons_notFound hm,
   fun _ _ _ _ _ _ _ hm => s2Loop_cons_err hm,
   fun _ _ => ⟨rfl, rfl⟩, fun _ _ _ => rfl, fun _ _ => ⟨rfl, rfl⟩, fun _ _ _ => rfl⟩

/-- Witness for C5 at concrete inputs: a missing rasterizer aborts stage 1
on the spot, and a non-zero texconv exit makes stage 2 continue with the
remaining files. -/
theorem C5_failure_distinction_witness :
    s1Loop (fun _ => ToolResult.notFound) "svg" "pngs"
      ⟨0, 0, some [], [], [], false⟩ [⟨"a.svg", [1], 0⟩] =
      s1NF ⟨0, 0, some [], [], [], false⟩ ⟨"a.svg", [1], 0⟩ ∧
    s2Loop (fun _ => ToolResult.err "boom") "pngs" "dds"
      ⟨0, some [], [], [], false⟩ [⟨"a.png", [1], 0⟩] =
      s2Loop (fun _ => ToolResult.err "boom") "pngs" "dds"
        (s2Err ⟨0, some [], [], [], false⟩ ⟨"a.png", [1], 0⟩ "boom") [] :=
  ⟨C5_failure_distinction.1 _ "svg" "pngs" ⟨0, 0, some [], [], [], false⟩
      ⟨"a.svg", [1], 0⟩ [] rfl rfl,
   C5_failure_distinction.2.2.2.1 _ "pngs" "dds" ⟨0, some [], [], [], false⟩
      ⟨"a.png", [1], 0⟩ [] "boom" rfl⟩

/-- C3 (confirmed): presence-as-cache in stage 1.  For a vector source
whose raster target already exists before the stage runs, the rasterizing
tool is never invoked for that file, the existing raster's directory entry
is untouched, the file is counted as skipped (when no missing binary
aborted the stage first), and the returned count equals the number of
files added to the raster directory — newly produced rasters only. -/
theorem C3_stage1_presence_cache (M : Tool) (sN pN : String) (svgD pngD : Dir) (f : File)
    (hf : f ∈ globExt ".svg" svgD)
    (hp : dirHas pngD (pstem f.name ++ ".png") = true) :
    f.name ∉ (convert_svgs_to_pngs M sN pN svgD pngD).invoked ∧
    lookupFile (dirFiles (convert_svgs_to_pngs M sN pN svgD pngD).pngDir)
        (pstem f.name ++ ".png") =
      lookupFile (dirFiles pngD) (pstem f.name ++ ".png") ∧
    ((convert_svgs_to_pngs M sN pN svgD pngD).aborted = false →
      1 ≤ (convert_svgs_to_pngs M sN pN svgD pngD).skipped) ∧
    (dirFiles (convert_svgs_to_pngs M sN pN svgD pngD).pngDir).length =
      (dirFiles pngD).length + (convert_svgs_to_pngs M sN pN svgD pngD).count := by
  have hne : (globExt ".svg" svgD).isEmpty = false := by
    cases hb : (globExt ".svg" svgD).isEmpty
    · rfl
    · exact absurd (List.isEmpty_iff.mp hb ▸ hf) (List.not_mem_nil f)
  simp only [convert_svgs_to_pngs, globExt_mkdirp, hne, Bool.false_eq_true, if_false]
  refine ⟨?_, ?_, ?_, ?_⟩
  · exact s1Loop_not_invoked (globExt ".svg" svgD)
      ⟨0, 0, mkdirp pngD, [], [], false⟩ hp (List.not_mem_nil _)
  · exact s1Loop_lookup_preserved (globExt ".svg" svgD)
      ⟨0, 0, mkdirp pngD, [], [], false⟩ hp
  · intro hab
    rcases s1Loop_skip_hit (globExt ".svg" svgD)
        ⟨0, 0, mkdirp pngD, [], [], false⟩ hf hp with h | h
    · exact h
    · rw [h] at hab
      exact Bool.noConfusion hab
  · exact s1Loop_size (globExt ".svg" svgD) ⟨0, 0, mkdirp pngD, [], [], false⟩

/-- Witness for C3 at a concrete input: `a.svg` with `a.png` already
present; the run skips it and converts nothing new. -/
theorem C3_stage1_presence_cache_witness :
    "a.svg" ∉ (convert_svgs_to_pngs (fun _ => ToolResult.ok [1] 0) "svg" "pngs"
        (some [⟨"a.svg", [0], 0⟩]) (some [⟨"a.png", [3], 4⟩])).invoked ∧
    lookupFile (dirFiles (convert_svgs_to_pngs (fun _ => ToolResult.ok [1] 0) "svg" "pngs"
        (some [⟨"a.svg", [0], 0⟩]) (some [⟨"a.png", [3], 4⟩])).pngDir) "a.png" =
      lookupFile (dirFiles (some [⟨"a.png", [3], 4⟩])) "a.png" ∧
    ((convert_svgs_to_pngs (fun _ => ToolResult.ok [1] 0) "svg" "pngs"
        (some [⟨"a.svg", [0], 0⟩]) (some [⟨"a.png", [3], 4⟩])).aborted = false →
      1 ≤ (convert_svgs_to_pngs (fun _ => ToolResult.ok [1] 0) "svg" "pngs"
        (some [⟨"a.svg", [0], 0⟩]) (some [⟨"a.png", [3], 4⟩])).skipped) ∧
    (dirFiles (convert_svgs_to_pngs (fun _ => ToolResult.ok [1] 0) "svg" "pngs"
        (some [⟨"a.svg", [0], 0⟩]) (some [⟨"a.png", [3], 4⟩])).pngDir).length =
      (dirFiles (some [⟨"a.png", [3], 4⟩])).length +
        (convert_svgs_to_pngs (fun _ => ToolResult.ok [1] 0) "svg" "pngs"
          (some [⟨"a.svg", [0], 0⟩]) (some [⟨"a.png", [3], 4⟩])).count :=
  C3_stage1_presence_cache (fun _ => ToolResult.ok [1] 0) "svg" "pngs"
    (some [⟨"a.svg", [0], 0⟩]) (some [⟨"a.png", [3], 4⟩]) ⟨"a.svg", [0], 0⟩
    (by decide) (by decide)

/-- Stage 1 leaves the (created) source directory as it was. -/
theorem convert_svgs_svgDir (M : Tool) (sN pN : String) (svgD pngD : Dir) :
    (convert_svgs_to_pngs M sN pN svgD pngD).svgDir = mkdirp svgD := by
  simp only [convert_svgs_to_pngs, globExt_mkdirp]
  split
  · rfl
  · rfl

/-- With an always-succeeding tool, after stage 1 every globbed source stem
has its raster present. -/
theorem convert_svgs_cover (M : Tool) (sN pN : String) (svgD pngD : Dir)
    (hok : ∀ a, ∃ c m, M a = ToolResult.ok c m) (f : File)
    (hf : f ∈ globExt ".svg" svgD) :
    dirHas (convert_svgs_to_pngs M sN pN svgD pngD).pngDir (pstem f.name ++ ".png") = true := by
  have hne : (globExt ".svg" svgD).isEmpty = false := by
    cases hb : (globExt ".svg" svgD).isEmpty
    · rfl
    · exact absurd (List.isEmpty_iff.mp hb ▸ hf) (List.not_mem_nil f)
  simp only [convert_svgs_to_pngs, globExt_mkdirp, hne, Bool.false_eq_true, if_false]
  exact s1Loop_allok_cover hok (globExt ".svg" svgD) ⟨0, 0, mkdirp pngD, [], [], false⟩ hf

/-- When every globbed source stem already has its raster, stage 1 converts
nothing and invokes nothing. -/
theorem convert_svgs_all_covered (M : Tool) (sN pN : String) (svgD pngD : Dir)
    (hcov : ∀ f ∈ globExt ".svg" svgD, dirHas pngD (pstem f.name ++ ".png") = true) :
    (convert_svgs_to_pngs M sN pN svgD pngD).count = 0 ∧
    (convert_svgs_to_pngs M sN pN svgD pngD).invoked = [] := by
  by_cases hemp : (globExt ".svg" svgD).isEmpty
  · simp [convert_svgs_to_pngs, globExt_mkdirp, hemp]
  · have hne : (globExt ".svg" svgD).isEmpty = false := by
      cases hb : (globExt ".svg" svgD).isEmpty
      · rfl
      · exact absurd hb hemp
    simp only [convert_svgs_to_pngs, globExt_mkdirp, hne, Bool.false_eq_true, if_false]
    rw [s1Loop_all_skip (globExt ".svg" svgD) ⟨0, 0, mkdirp pngD, [], [], false⟩ hcov]
    exact ⟨rfl, rfl⟩

/-- C6 (confirmed): pure idempotence of stage 1.  If every first-run
conversion succeeds (the tool exits 0 whenever called), running
`convert_svgs_to_pngs` a second time on the resulting directories converts
nothing — it returns 0 and passes no file to the rasterizing tool. -/
theorem C6_stage1_idempotent (M : Tool) (sN pN : String) (svgD pngD : Dir)
    (hok : ∀ a, ∃ c m, M a = ToolResult.ok c m) :
    (convert_svgs_to_pngs M sN pN (convert_svgs_to_pngs M sN pN svgD pngD).svgDir
        (convert_svgs_to_pngs M sN pN svgD pngD).pngDir).count = 0 ∧
    (convert_svgs_to_pngs M sN pN (convert_svgs_to_pngs M sN pN svgD pngD).svgDir
        (convert_svgs_to_pngs M sN pN svgD pngD).pngDir).invoked = [] := by
  apply convert_svgs_all_covered
  intro f hf
  rw [convert_svgs_svgDir] at hf
  rw [globExt_mkdirp] at hf
  exact convert_svgs_cover M sN pN svgD pngD hok f hf

/-- Witness for C6 at a concrete input: one source file, a tool that
always succeeds; the second run converts and invokes nothing. -/
theorem C6_stage1_idempotent_witness :
    (convert_svgs_to_pngs (fun _ => ToolResult.ok [1] 0) "svg" "pngs"
        (convert_svgs_to_pngs (fun _ => ToolResult.ok [1] 0) "svg" "pngs"
          (some [⟨"a.svg", [0], 0⟩]) (some [])).svgDir
        (convert_svgs_to_pngs (fun _ => ToolResult.ok [1] 0) "svg" "pngs"
          (some [⟨"a.svg", [0], 0⟩]) (some [])).pngDir).count = 0 ∧
    (convert_svgs_to_pngs (fun _ => ToolResult.ok [1] 0) "svg" "pngs"
        (convert_svgs_to_pngs (fun _ => ToolResult.ok [1] 0) "svg" "pngs"
          (some [⟨"a.svg", [0], 0⟩]) (some [])).svgDir
        (convert_svgs_to_pngs (fun _ => ToolResult.ok [1] 0) "svg" "pngs"
          (some [⟨"a.svg", [0], 0⟩]) (some [])).pngDir).invoked = [] :=
  C6_stage1_idempotent (fun _ => ToolResult.ok [1] 0) "svg" "pngs"
    (some [⟨"a.svg", [0], 0⟩]) (some []) (fun _ => ⟨[1], 0, rfl⟩)

end ConvertToDds
